import Mathlib

/-!
Shallow embedding of the migration-generation part of `go-kallax`
(`generator/generator.go`): the `MigrationGenerator`, its lock loading
(`LoadLock`), migration persistence (`Generate` / `writeMigration` /
`createFile` / `migrationFile`) and the `slugify` name normalizer.

Filesystem and clock effects are made explicit: an `FSEnv` oracle decides
which reads/opens/writes fail (mirroring the `ioutil.ReadFile`,
`os.OpenFile` and `File.Write` call sites), and the `Timestamper` field is
a stream of clock readings indexed by call count.  Runs are summarized by
the ordered trace of successfully written artifacts, the console output,
and the returned error.
-/

set_option autoImplicit false

namespace Kallax

/-- `time.Time` as used by this code: only `t.Unix()` (seconds since epoch,
an `int64`) is ever consulted, so a time is represented by that value. -/
structure Time where
  unix : Int
deriving DecidableEq

/-- `Timestamper` (`func() time.Time`): modelled as a stream of clock
readings; the `n`-th call of the timestamper returns `now n`. -/
def Timestamper := Nat → Time

/-- Modelled from the spec: a table descriptor (spec section 3).  Only the
presence and count of tables matter to the code under `src/`, so just the
name is carried.  The `Table` type itself lives outside `src/`. -/
structure Table where
  Name : String
deriving DecidableEq

/-- Modelled from the spec: a schema snapshot is an ordered mapping from
table name to table descriptor (spec section 3).  The `DBSchema` type
lives outside `src/`; `generator.go` only ever constructs its zero value
(`new(DBSchema)`, zero tables) or receives one from `json.Unmarshal`. -/
structure DBSchema where
  Tables : List Table
deriving DecidableEq

/-- Modelled from the spec: a `Change` is a tagged variant (spec section 3)
rendering a human-readable description via `String()`.  Only the kind tag
(used for console coloring in `printMigrationInfo`) and the display string
reach the code under `src/`; the SQL rendering lives outside it. -/
inductive Change where
  | CreateTable (descr : String)
  | DropTable (descr : String)
  | AddColumn (descr : String)
  | DropColumn (descr : String)
  | AlterColumn (descr : String)
  | AddIndex (descr : String)
  | DropIndex (descr : String)
  | ManualChange (descr : String)
deriving DecidableEq

/-- `Change.String()`: the human-readable description of a change. -/
def Change.string : Change → String
  | .CreateTable d => d
  | .DropTable d => d
  | .AddColumn d => d
  | .DropColumn d => d
  | .AlterColumn d => d
  | .AddIndex d => d
  | .DropIndex d => d
  | .ManualChange d => d

deriving instance DecidableEq for Except

/-- `encoding.TextMarshaler`: all the writer needs of a value is the
outcome of its `MarshalText()` call — either the marshaled bytes or an
error.  The concrete marshalers live outside `src/`. -/
structure TextMarshaler where
  marshalText : Except String String
deriving DecidableEq

/-- Modelled from the spec: the `Up`/`Down` fields of a `Migration` are
ordered change lists that also act as `encoding.TextMarshaler`s (spec
section 3); the list is consulted by `len(migration.Up)` and
`printMigrationInfo`, the marshal outcome by `createFile`. -/
structure ChangeSet where
  changes : List Change
  marshalText : Except String String
deriving DecidableEq

/-- Modelled from the spec: a `Migration` holds the `Up` change list, the
`Down` change list and the new `Lock` snapshot in marshalable form (spec
section 3).  The `Migration` type itself lives outside `src/`. -/
structure Migration where
  Up : ChangeSet
  Down : ChangeSet
  Lock : TextMarshaler
deriving DecidableEq

/-- Outcome of `ioutil.ReadFile`: the three-way distinction the code makes
(`os.IsNotExist(err)`, other error, success). -/
inductive ReadFileResult where
  | notExist
  | otherError (msg : String)
  | ok (data : String)
deriving DecidableEq

/-- The filesystem oracle: which named artifact reads/opens/writes fail,
and with what OS-level error detail.  `openFails` models `os.OpenFile`
(generator.go:178) and `writeFails` models `File.Write` (generator.go:184)
on the named file; `readFile` models `ioutil.ReadFile` (generator.go:133). -/
structure FSEnv where
  readFile : String → ReadFileResult
  openFails : String → Option String
  writeFails : String → Option String

/-- `filepath.Join(dir, name)` for a nonempty, clean `dir` and a basename
containing no separators or dot-segments (the only way this code calls
it): `dir + "/" + name`. -/
def filepathJoin (dir name : String) : String :=
  dir ++ "/" ++ name

/-- `migrationFileType` is a string type; its three constants follow. -/
abbrev migrationFileType := String

def migrationUp : migrationFileType := "up.sql"
def migrationDown : migrationFileType := "down.sql"
def migrationLock : migrationFileType := "lock.json"

/-- One rune of `strings.ToLower` (Go lowers each rune of the string
independently via `unicode.ToLower`), modelled exactly on every rune
whose lowering is observable through `slugify`'s filter: ASCII `'A'..'Z'`
(codepoints 65..90) move down by 32 to `'a'..'z'`, and the only two
runes outside ASCII whose Unicode simple lowercase form is ASCII —
U+212A KELVIN SIGN (8490), lowered to `'k'` (107), and U+0130 LATIN
CAPITAL LETTER I WITH DOT ABOVE (304), lowered to `'i'` (105) — are
mapped as Go maps them.  Every other cased rune lowers to a non-ASCII
letter, which the loop body drops exactly as it drops the rune
unlowered, and `unicode.ToLower` fixes the retained runes
`'a'..'z'`/`'0'..'9'` and the separators `' '`/`'_'`/`'-'`, so modelling
the remaining runes as unchanged is observationally equal through
`slugRune` below. -/
def runeLower (r : Char) : Char :=
  if 65 ≤ r.toNat ∧ r.toNat ≤ 90 then Char.ofNat (r.toNat + 32)
  else if r.toNat = 8490 then 'k'
  else if r.toNat = 304 then 'i'
  else r

/-- The loop body of `slugify` (generator.go:194-198), acting on one
already-lowered rune: runes in `'a'..'z'` (97..122) or `'0'..'9'`
(48..57) are written through; `' '` (32), `'_'` (95) and `'-'` (45)
are written as `'_'`; every other rune writes nothing. -/
def slugRune (r : Char) : Option Char :=
  if (97 ≤ r.toNat ∧ r.toNat ≤ 122) ∨ (48 ≤ r.toNat ∧ r.toNat ≤ 57) then
    some r
  else if r.toNat = 32 ∨ r.toNat = 95 ∨ r.toNat = 45 then
    some '_'
  else
    none

/-- `slugify` (generator.go:191-201): lower the string, then run the
buffer-building loop over its runes. -/
def slugify (str : String) : String :=
  String.mk (((str.data.map runeLower).filterMap slugRune))

/-- `MigrationGenerator` (generator.go:66-70). -/
structure MigrationGenerator where
  name : String
  dir : String
  now : Timestamper

/-- `NewMigrationGenerator` (generator.go:82-84).  The `time.Now`
timestamper is an injected effect, passed explicitly. -/
def NewMigrationGenerator (name dir : String) (now : Timestamper) : MigrationGenerator :=
  { name := slugify name, dir := dir, now := now }

/-- `LoadLock` (generator.go:132-146).  `unmarshal` stands for
`json.Unmarshal` into a `DBSchema` (the schema's JSON shape lives outside
`src/`); `new(DBSchema)` is the zero value, i.e. zero tables. -/
def MigrationGenerator.LoadLock (unmarshal : String → Except String DBSchema)
    (env : FSEnv) (g : MigrationGenerator) : Except String DBSchema :=
  match env.readFile (filepathJoin g.dir migrationLock) with
  | .notExist => .ok { Tables := [] }
  | .otherError e => .error ("error opening lock file: " ++ e)
  | .ok bytes =>
    match unmarshal bytes with
    | .error e => .error ("error unmarshaling lock schema: " ++ e)
    | .ok schema => .ok schema

/-- `migrationFile` (generator.go:168-170):
`filepath.Join(g.dir, fmt.Sprintf("%d_%s.%s", t.Unix(), g.name, typ))`. -/
def MigrationGenerator.migrationFile (g : MigrationGenerator) (typ : migrationFileType)
    (t : Time) : String :=
  filepathJoin g.dir (toString t.unix ++ "_" ++ g.name ++ "." ++ typ)

/-- `createFile` (generator.go:172-189): marshal, open (truncate/create),
write.  A marshal error is returned as-is; open and write errors are
wrapped with the filename.  Returns the written bytes on success. -/
def MigrationGenerator.createFile (env : FSEnv) (filename : String)
    (marshalText : Except String String) : Except String String :=
  match marshalText with
  | .error err => .error err
  | .ok data =>
    match env.openFails filename with
    | some e => .error ("error opening file: " ++ filename ++ ": " ++ e)
    | none =>
      match env.writeFails filename with
      | some e => .error ("error writing file: " ++ filename ++ ": " ++ e)
      | none => .ok data

/-- The `files` slice built by `writeMigration` (generator.go:150-157):
lock first, then the down script, then the up script, each paired with
its marshaler's outcome. -/
def MigrationGenerator.migrationFilesList (g : MigrationGenerator) (t : Time)
    (migration : Migration) : List (String × Except String String) :=
  [(filepathJoin g.dir migrationLock, migration.Lock.marshalText),
   (g.migrationFile migrationDown t, migration.Down.marshalText),
   (g.migrationFile migrationUp t, migration.Up.marshalText)]

/-- The write loop of `writeMigration` (generator.go:159-163): create each
file in order, stopping at the first error.  Returns the ordered trace of
successfully written `(filename, data)` pairs and the error, if any. -/
def writeFiles (env : FSEnv) :
    List (String × Except String String) → List (String × String) × Option String
  | [] => ([], none)
  | f :: fs =>
    match MigrationGenerator.createFile env f.1 f.2 with
    | .error e => ([], some e)
    | .ok data =>
      let rest := writeFiles env fs
      ((f.1, data) :: rest.1, rest.2)

/-- `writeMigration` (generator.go:148-166): read the clock once
(`t := g.now()`), build the three-entry file list, write it in order. -/
def MigrationGenerator.writeMigration (env : FSEnv) (g : MigrationGenerator) (clock : Nat)
    (migration : Migration) : List (String × String) × Option String :=
  let t := g.now clock
  writeFiles env (g.migrationFilesList t migration)

/-- `printMigrationInfo` (generator.go:110-129): the list of console
lines printed, in order.  Coloring is display-only and not modelled. -/
def printMigrationInfo (migration : Migration) : List String :=
  if migration.Up.changes.length = 0 then
    ["There are no changes since last migration. Nothing will be generated."]
  else
    "There are changes since last migration.\n\nThese are the proposed changes:" ::
      migration.Up.changes.map (fun change => " => " ++ change.string)

/-- Result of one `Generate` run: console output, the ordered trace of
successfully written artifacts, and the returned error. -/
structure GenResult where
  output : List String
  writes : List (String × String)
  err : Option String
deriving DecidableEq

/-- `Generate` (generator.go:102-108): print the migration info; if the
`Up` list is empty return `nil` without writing; otherwise persist via
`writeMigration`. -/
def MigrationGenerator.Generate (env : FSEnv) (g : MigrationGenerator) (clock : Nat)
    (migration : Migration) : GenResult :=
  let out := printMigrationInfo migration
  if migration.Up.changes.length = 0 then
    { output := out, writes := [], err := none }
  else
    let r := g.writeMigration env clock migration
    { output := out, writes := r.1, err := r.2 }

/-- C6's spec-worded per-character rule, for comparison with the source's
`slugRune` on lowered runes: a space (32), underscore (95) or hyphen (45)
collapses to `'_'`; otherwise the lowercased character is retained when it
is a lowercase letter `'a'..'z'` (97..122) or digit `'0'..'9'` (48..57);
all other characters are dropped. -/
def slugCharSpec (c : Char) : Option Char :=
  if c.toNat = 32 ∨ c.toNat = 95 ∨ c.toNat = 45 then
    some '_'
  else if (97 ≤ (runeLower c).toNat ∧ (runeLower c).toNat ≤ 122) ∨
          (48 ≤ (runeLower c).toNat ∧ (runeLower c).toNat ≤ 57) then
    some (runeLower c)
  else
    none

/-- The temporal property claim C1 asserts of a chronological write trace:
every prefix of the trace containing the lock artifact already contains
both script artifacts of the same run. -/
def lockOnlyAfterScripts (writes : List String) (lock down up : String) : Bool :=
  (List.range (writes.length + 1)).all fun k =>
    !((writes.take k).contains lock) ||
      ((writes.take k).contains down && (writes.take k).contains up)

/-! Concrete fixtures used to witness the theorems below. -/

/-- A fixed clock: every reading is Unix second 1500000000. -/
def demoNow : Timestamper := fun _ => { unix := 1500000000 }

/-- A generator for migration name `"Add users-table"` (slug
`add_users_table`) over directory `migrations`. -/
def gDemo : MigrationGenerator :=
  NewMigrationGenerator "Add users-table" "migrations" demoNow

/-- A migration with an empty `Up` change list. -/
def migEmpty : Migration :=
  { Up := { changes := [], marshalText := .ok "" },
    Down := { changes := [], marshalText := .ok "" },
    Lock := { marshalText := .ok "LOCKDATA" } }

/-- A migration with one `CreateTable` change, all marshalers succeeding. -/
def migUsers : Migration :=
  { Up := { changes := [Change.CreateTable "create table users"],
            marshalText := .ok "CREATE TABLE users;" },
    Down := { changes := [Change.DropTable "drop table users"],
              marshalText := .ok "DROP TABLE users;" },
    Lock := { marshalText := .ok "LOCKDATA" } }

/-- A filesystem on which every read reports a missing file and every open
and write succeeds. -/
def envOk : FSEnv :=
  { readFile := fun _ => ReadFileResult.notExist,
    openFails := fun _ => none,
    writeFails := fun _ => none }

/-- The down-script filename `gDemo` produces at the demo clock reading:
`migrations/1500000000_add_users_table.down.sql`. -/
def downPathDemo : String := gDemo.migrationFile migrationDown (demoNow 0)

/-- A filesystem on which opening the demo down-script file fails with
`permission denied` and everything else succeeds. -/
def envFailDown : FSEnv :=
  { readFile := fun _ => ReadFileResult.notExist,
    openFails := fun n => if n = downPathDemo then some "permission denied" else none,
    writeFails := fun _ => none }

/-- A filesystem whose lock file exists but holds `garbage`. -/
def envCorrupt : FSEnv :=
  { readFile := fun _ => ReadFileResult.ok "garbage",
    openFails := fun _ => none,
    writeFails := fun _ => none }

/-- A stand-in for `json.Unmarshal` into `DBSchema` that accepts only the
empty document. -/
def unmarshalDemo : String → Except String DBSchema :=
  fun s => if s = "" then .ok { Tables := [] } else .error "invalid JSON"

/-! Helper lemmas. -/

/-- Reading back the codepoint of a `Char` built from a small codepoint. -/
theorem char_toNat_ofNat {n : Nat} (h : n < 55296) : (Char.ofNat n).toNat = n := by
  have hv : n.isValidChar := Or.inl h
  rw [Char.ofNat, dif_pos hv]
  rfl

/-- Case analysis for `runeLower`: an ASCII uppercase rune moves up by
32, the Kelvin sign becomes `'k'`, dotted capital I becomes `'i'`, and
every other rune is unchanged. -/
theorem runeLower_cases (c : Char) :
    (65 ≤ c.toNat ∧ c.toNat ≤ 90 ∧ (runeLower c).toNat = c.toNat + 32) ∨
    (c.toNat = 8490 ∧ runeLower c = 'k') ∨
    (c.toNat = 304 ∧ runeLower c = 'i') ∨
    (¬(65 ≤ c.toNat ∧ c.toNat ≤ 90) ∧ c.toNat ≠ 8490 ∧ c.toNat ≠ 304 ∧
      runeLower c = c) := by
  by_cases h : 65 ≤ c.toNat ∧ c.toNat ≤ 90
  · refine Or.inl ⟨h.1, h.2, ?_⟩
    rw [runeLower, if_pos h]
    exact char_toNat_ofNat (by omega)
  · by_cases hk : c.toNat = 8490
    · exact Or.inr (Or.inl ⟨hk, by rw [runeLower, if_neg h, if_pos hk]⟩)
    · by_cases hi : c.toNat = 304
      · exact Or.inr (Or.inr (Or.inl ⟨hi,
          by rw [runeLower, if_neg h, if_neg hk, if_pos hi]⟩))
      · exact Or.inr (Or.inr (Or.inr ⟨h, hk, hi,
          by rw [runeLower, if_neg h, if_neg hk, if_neg hi]⟩))

/-- Every rune `slugRune` emits is a lowercase ASCII letter, a digit, or
an underscore. -/
theorem slugRune_charset {a c : Char} (h : slugRune a = some c) :
    (97 ≤ c.toNat ∧ c.toNat ≤ 122) ∨ (48 ≤ c.toNat ∧ c.toNat ≤ 57) ∨ c = '_' := by
  by_cases hk : (97 ≤ a.toNat ∧ a.toNat ≤ 122) ∨ (48 ≤ a.toNat ∧ a.toNat ≤ 57)
  · rw [slugRune, if_pos hk] at h
    obtain rfl : a = c := by injection h
    tauto
  · rw [slugRune, if_neg hk] at h
    by_cases hs : a.toNat = 32 ∨ a.toNat = 95 ∨ a.toNat = 45
    · rw [if_pos hs] at h
      injection h with h
      exact Or.inr (Or.inr h.symm)
    · rw [if_neg hs] at h
      cases h

/-- Every rune `slugRune` emits is a fixed point of the lower-then-filter
pipeline: lowering leaves it unchanged and `slugRune` emits it again. -/
theorem slugRune_fixed {a c : Char} (h : slugRune a = some c) :
    runeLower c = c ∧ slugRune c = some c := by
  rcases slugRune_charset h with hc | hc | rfl
  · refine ⟨by rw [runeLower, if_neg (by omega), if_neg (by omega), if_neg (by omega)], ?_⟩
    rw [slugRune, if_pos (Or.inl hc)]
  · refine ⟨by rw [runeLower, if_neg (by omega), if_neg (by omega), if_neg (by omega)], ?_⟩
    rw [slugRune, if_pos (Or.inr hc)]
  · exact ⟨by decide, by decide⟩

/-- The source's per-rune pipeline (`strings.ToLower` then the loop body)
agrees with the spec-worded per-character rule. -/
theorem slugRune_runeLower_eq_spec (c : Char) :
    slugRune (runeLower c) = slugCharSpec c := by
  rcases runeLower_cases c with ⟨h1, h2, h3⟩ | ⟨hk, he⟩ | ⟨hi, he⟩ | ⟨h, hk, hi, he⟩
  · rw [slugRune, if_pos (Or.inl ⟨by omega, by omega⟩),
      slugCharSpec, if_neg (by omega), if_pos (Or.inl ⟨by omega, by omega⟩)]
  · rw [he, slugCharSpec, he, if_neg (by omega), if_pos (by decide)]
    decide
  · rw [he, slugCharSpec, he, if_neg (by omega), if_pos (by decide)]
    decide
  · rw [slugCharSpec, he, slugRune]
    by_cases hs : c.toNat = 32 ∨ c.toNat = 95 ∨ c.toNat = 45
    · rw [if_neg (by omega), if_pos hs, if_pos hs]
    · by_cases hk : (97 ≤ c.toNat ∧ c.toNat ≤ 122) ∨ (48 ≤ c.toNat ∧ c.toNat ≤ 57)
      · rw [if_pos hk, if_neg hs, if_pos hk]
      · rw [if_neg hk, if_neg hs, if_neg hs, if_neg hk]

/-- Re-running the lower-then-filter pipeline over an already-slugged rune
list changes nothing. -/
theorem filterMap_slug_fix (l : List Char) :
    ((l.filterMap slugRune).map runeLower).filterMap slugRune = l.filterMap slugRune := by
  induction l with
  | nil => rfl
  | cons a l ih =>
    cases h : slugRune a with
    | none => rw [List.filterMap_cons_none h, ih]
    | some c =>
      obtain ⟨h1, h2⟩ := slugRune_fixed h
      rw [List.filterMap_cons_some h, List.map_cons, h1,
        List.filterMap_cons_some h2, ih]

/-- The write loop only ever writes the listed files, in list order:
its trace of written names is a prefix of the planned names. -/
theorem writeFiles_fst_prefix (env : FSEnv) (fs : List (String × Except String String)) :
    (writeFiles env fs).1.map Prod.fst <+: fs.map Prod.fst := by
  induction fs with
  | nil => simp [writeFiles]
  | cons f fs ih =>
    cases h : MigrationGenerator.createFile env f.1 f.2 with
    | error e => simp [writeFiles, h]
    | ok d =>
      simp only [writeFiles, h, List.map_cons]
      exact (List.cons_prefix_cons).2 ⟨rfl, ih⟩

/-- A run of the write loop that reports no error wrote every listed file. -/
theorem writeFiles_all_ok (env : FSEnv) (fs : List (String × Except String String))
    (h : (writeFiles env fs).2 = none) :
    (writeFiles env fs).1.map Prod.fst = fs.map Prod.fst := by
  induction fs with
  | nil => rfl
  | cons f fs ih =>
    cases hc : MigrationGenerator.createFile env f.1 f.2 with
    | error e => rw [writeFiles, hc] at h; cases h
    | ok d =>
      rw [writeFiles, hc] at h ⊢
      simpa using ih h

/-- A run of the write loop that fails at position `i` (everything before
`i` succeeding) wrote exactly the first `i` files and reports that error. -/
theorem writeFiles_fail_at (env : FSEnv) :
    ∀ (fs : List (String × Except String String)) (i : Nat) (hi : i < fs.length) (e : String),
      (∀ j (hj : j < i), ∃ d,
        MigrationGenerator.createFile env (fs.get ⟨j, Nat.lt_trans hj hi⟩).1
          (fs.get ⟨j, Nat.lt_trans hj hi⟩).2 = .ok d) →
      MigrationGenerator.createFile env (fs.get ⟨i, hi⟩).1 (fs.get ⟨i, hi⟩).2 = .error e →
      (writeFiles env fs).1.map Prod.fst = (fs.take i).map Prod.fst ∧
      (writeFiles env fs).2 = some e
  | [], i, hi, _, _, _ => absurd hi (by simp)
  | f :: fs, 0, hi, e, _, hfail => by
    simp only [List.get] at hfail
    simp [writeFiles, hfail]
  | f :: fs, i + 1, hi, e, hok, hfail => by
    obtain ⟨d, hd⟩ := hok 0 (Nat.succ_pos i)
    simp only [List.get] at hd hfail
    have ih := writeFiles_fail_at env fs i (by simpa using Nat.lt_of_succ_lt_succ hi) e
      (fun j hj => by simpa using hok (j + 1) (Nat.succ_lt_succ hj)) hfail
    rw [writeFiles, hd]
    simpa using ih

/-- A `createFile` error on a marshalable value is an open or a write
error, and either message names the file. -/
theorem createFile_error_shape {env : FSEnv} {filename data msg : String}
    (h : MigrationGenerator.createFile env filename (.ok data) = .error msg) :
    ∃ detail, msg = "error opening file: " ++ filename ++ ": " ++ detail ∨
              msg = "error writing file: " ++ filename ++ ": " ++ detail := by
  rw [MigrationGenerator.createFile] at h
  cases ho : env.openFails filename with
  | some e2 =>
    rw [ho] at h
    injection h with h
    exact ⟨e2, Or.inl h.symm⟩
  | none =>
    rw [ho] at h
    cases hw : env.writeFails filename with
    | some e2 =>
      rw [hw] at h
      injection h with h
      exact ⟨e2, Or.inr h.symm⟩
    | none => rw [hw] at h; cases h

/-- `Generate` on a migration with changes is exactly `writeMigration`
preceded by the console report. -/
theorem generate_nonempty (env : FSEnv) (g : MigrationGenerator) (clock : Nat)
    (migration : Migration) (h : migration.Up.changes ≠ []) :
    g.Generate env clock migration =
      { output := printMigrationInfo migration,
        writes := (g.writeMigration env clock migration).1,
        err := (g.writeMigration env clock migration).2 } := by
  rw [MigrationGenerator.Generate, if_neg (by simpa using h)]

/-! Claim theorems. -/

/-- C1 (counterexample): the claim that the lock artifact is written only
after both script artifacts fails on the code: `writeMigration` puts the
lock file first in its write sequence.  Concretely, when opening the
down-script file fails, the run ends with the lock file written and
neither script file written. -/
theorem c1_counterexample :
    lockOnlyAfterScripts
      ((MigrationGenerator.Generate envFailDown gDemo 0 migUsers).writes.map Prod.fst)
      (filepathJoin gDemo.dir migrationLock)
      (gDemo.migrationFile migrationDown (gDemo.now 0))
      (gDemo.migrationFile migrationUp (gDemo.now 0)) = false ∧
    (MigrationGenerator.Generate envFailDown gDemo 0 migUsers).writes.map Prod.fst =
      [filepathJoin gDemo.dir migrationLock] := by
  constructor <;> decide

/-- C1 (amended): persistence writes the lock artifact first, then the
down script, then the up script, stopping at the first failure: the
chronological trace of written artifacts is always a prefix of
(lock, down-script, up-script), so a script file never exists without the
lock of the same run — not the other way around. -/
theorem c1_amended_lock_written_first (env : FSEnv) (g : MigrationGenerator) (clock : Nat)
    (migration : Migration) :
    (g.Generate env clock migration).writes.map Prod.fst <+:
      [filepathJoin g.dir migrationLock,
       g.migrationFile migrationDown (g.now clock),
       g.migrationFile migrationUp (g.now clock)] := by
  by_cases h : migration.Up.changes = []
  · rw [MigrationGenerator.Generate, if_pos (by simp [h])]
    exact List.nil_prefix
  · rw [generate_nonempty env g clock migration h]
    have hp := writeFiles_fst_prefix env (g.migrationFilesList (g.now clock) migration)
    simpa [MigrationGenerator.writeMigration, MigrationGenerator.migrationFilesList]
      using hp

/-- C2: `Generate` on a migration whose `Up` list is empty writes zero
artifacts, prints exactly the "nothing to do" report, and returns no
error. -/
theorem c2_generate_no_changes (env : FSEnv) (g : MigrationGenerator) (clock : Nat)
    (migration : Migration) (h : migration.Up.changes = []) :
    g.Generate env clock migration =
      { output := ["There are no changes since last migration. Nothing will be generated."],
        writes := [], err := none } := by
  simp [MigrationGenerator.Generate, printMigrationInfo, h]

/-- C2 (witness): the empty-change migration on the demo generator. -/
theorem c2_witness :
    migEmpty.Up.changes = [] ∧
    MigrationGenerator.Generate envOk gDemo 0 migEmpty =
      { output := ["There are no changes since last migration. Nothing will be generated."],
        writes := [], err := none } :=
  ⟨rfl, c2_generate_no_changes envOk gDemo 0 migEmpty rfl⟩

/-- C3: when the lock artifact does not exist, `LoadLock` returns the
empty snapshot (zero tables) and no error. -/
theorem c3_loadlock_bootstrap (unmarshal : String → Except String DBSchema)
    (env : FSEnv) (g : MigrationGenerator)
    (h : env.readFile (filepathJoin g.dir migrationLock) = ReadFileResult.notExist) :
    g.LoadLock unmarshal env = .ok { Tables := [] } := by
  rw [MigrationGenerator.LoadLock, h]

/-- C3 (witness): the demo generator over a filesystem with no lock file. -/
theorem c3_witness :
    envOk.readFile (filepathJoin gDemo.dir migrationLock) = ReadFileResult.notExist ∧
    gDemo.LoadLock unmarshalDemo envOk = .ok { Tables := [] } :=
  ⟨rfl, c3_loadlock_bootstrap unmarshalDemo envOk gDemo rfl⟩

/-- C4: a fully successful `Generate` (no error returned) on a migration
with a non-empty `Up` list persists exactly three artifacts: the lock
snapshot, the down script and the up script. -/
theorem c4_generate_success_three_artifacts (env : FSEnv) (g : MigrationGenerator)
    (clock : Nat) (migration : Migration)
    (hup : migration.Up.changes ≠ [])
    (hok : (MigrationGenerator.Generate env g clock migration).err = none) :
    (MigrationGenerator.Generate env g clock migration).writes.map Prod.fst =
      [filepathJoin g.dir migrationLock,
       g.migrationFile migrationDown (g.now clock),
       g.migrationFile migrationUp (g.now clock)] ∧
    (MigrationGenerator.Generate env g clock migration).writes.length = 3 := by
  rw [generate_nonempty env g clock migration hup] at hok ⊢
  simp only [MigrationGenerator.writeMigration] at hok ⊢
  have h3 := writeFiles_all_ok env (g.migrationFilesList (g.now clock) migration) hok
  refine ⟨by rw [h3]; rfl, ?_⟩
  have hl : ((writeFiles env (g.migrationFilesList (g.now clock) migration)).1.map
      Prod.fst).length = 3 := by rw [h3]; rfl
  simpa using hl

/-- C4 (witness): a successful run of the demo generator. -/
theorem c4_witness :
    migUsers.Up.changes ≠ [] ∧
    (MigrationGenerator.Generate envOk gDemo 0 migUsers).err = none ∧
    (MigrationGenerator.Generate envOk gDemo 0 migUsers).writes.map Prod.fst =
      [filepathJoin gDemo.dir migrationLock,
       gDemo.migrationFile migrationDown (gDemo.now 0),
       gDemo.migrationFile migrationUp (gDemo.now 0)] ∧
    (MigrationGenerator.Generate envOk gDemo 0 migUsers).writes.length = 3 := by
  have h := c4_generate_success_three_artifacts envOk gDemo 0 migUsers (by decide) rfl
  exact ⟨by decide, rfl, h.1, h.2⟩

/-- C5: when the lock artifact exists but its contents do not parse as a
schema, `LoadLock` returns the unmarshal error (wrapped) and no
snapshot. -/
theorem c5_loadlock_corrupt (unmarshal : String → Except String DBSchema)
    (env : FSEnv) (g : MigrationGenerator) (data e : String)
    (hr : env.readFile (filepathJoin g.dir migrationLock) = ReadFileResult.ok data)
    (hu : unmarshal data = .error e) :
    g.LoadLock unmarshal env = .error ("error unmarshaling lock schema: " ++ e) := by
  simp [MigrationGenerator.LoadLock, hr, hu]

/-- C5 (witness): a lock file holding unparseable contents. -/
theorem c5_witness :
    envCorrupt.readFile (filepathJoin gDemo.dir migrationLock) = ReadFileResult.ok "garbage" ∧
    unmarshalDemo "garbage" = .error "invalid JSON" ∧
    gDemo.LoadLock unmarshalDemo envCorrupt =
      .error "error unmarshaling lock schema: invalid JSON" :=
  ⟨rfl, by decide,
   c5_loadlock_corrupt unmarshalDemo envCorrupt gDemo "garbage" "invalid JSON" rfl (by decide)⟩

/-- C6: the slug is character-for-character the spec's normalization
(space/underscore/hyphen collapse to `_`, other characters are lowercased
and retained only as `a..z`/`0..9`), and every character of the slug is a
lowercase letter (codepoints 97..122), a digit (48..57) or `'_'`. -/
theorem c6_slugify_normal_form (s : String) :
    (slugify s).data = s.data.filterMap slugCharSpec ∧
    ∀ c ∈ (slugify s).data,
      (97 ≤ c.toNat ∧ c.toNat ≤ 122) ∨ (48 ≤ c.toNat ∧ c.toNat ≤ 57) ∨ c = '_' := by
  constructor
  · show (s.data.map runeLower).filterMap slugRune = _
    rw [List.filterMap_map]
    exact congrFun (congrArg List.filterMap (funext slugRune_runeLower_eq_spec)) s.data
  · intro c hc
    have hm : c ∈ (s.data.map runeLower).filterMap slugRune := hc
    rw [List.mem_filterMap] at hm
    obtain ⟨a, _, ha⟩ := hm
    exact slugRune_charset ha

/-- C6 (witness): the demo name, with the charset fact instantiated at the
slug's first character. -/
theorem c6_witness :
    (slugify "Add users-table").data = "Add users-table".data.filterMap slugCharSpec ∧
    ((97 ≤ Char.toNat 'a' ∧ Char.toNat 'a' ≤ 122) ∨
     (48 ≤ Char.toNat 'a' ∧ Char.toNat 'a' ≤ 57) ∨ 'a' = '_') :=
  ⟨(c6_slugify_normal_form "Add users-table").1,
   (c6_slugify_normal_form "Add users-table").2 'a' (by decide)⟩

/-- C7: for every timestamp and migration name, the generator built by
`NewMigrationGenerator` names the two script artifacts
`{unixTimestamp}_{slug}.up.sql` and `{unixTimestamp}_{slug}.down.sql`
inside its migrations directory, the timestamp printed as `t.Unix()`
seconds since epoch. -/
theorem c7_script_filenames (name dir : String) (now : Timestamper) (t : Time) :
    (NewMigrationGenerator name dir now).migrationFile migrationUp t =
      dir ++ "/" ++ toString t.unix ++ "_" ++ slugify name ++ ".up.sql" ∧
    (NewMigrationGenerator name dir now).migrationFile migrationDown t =
      dir ++ "/" ++ toString t.unix ++ "_" ++ slugify name ++ ".down.sql" := by
  constructor <;>
    simp only [NewMigrationGenerator, MigrationGenerator.migrationFile, filepathJoin,
      migrationUp, migrationDown, String.append_assoc] <;> rfl

/-- C8: when writing one of the three artifacts fails (its marshaling
having succeeded), `Generate` returns that error — whose message names the
failed artifact's file via an open-error or write-error wrapper — and the
artifacts after the failed one in the write sequence are not written. -/
theorem c8_write_failure_stops (env : FSEnv) (g : MigrationGenerator) (clock : Nat)
    (migration : Migration) (i : Nat) (data msg : String)
    (hup : migration.Up.changes ≠ [])
    (hi : i < (g.migrationFilesList (g.now clock) migration).length)
    (hprev : ∀ j (hj : j < i), ∃ d,
      MigrationGenerator.createFile env
        ((g.migrationFilesList (g.now clock) migration).get ⟨j, Nat.lt_trans hj hi⟩).1
        ((g.migrationFilesList (g.now clock) migration).get ⟨j, Nat.lt_trans hj hi⟩).2 = .ok d)
    (hmarshal : ((g.migrationFilesList (g.now clock) migration).get ⟨i, hi⟩).2 = .ok data)
    (hfail : MigrationGenerator.createFile env
      ((g.migrationFilesList (g.now clock) migration).get ⟨i, hi⟩).1
      ((g.migrationFilesList (g.now clock) migration).get ⟨i, hi⟩).2 = .error msg) :
    (MigrationGenerator.Generate env g clock migration).err = some msg ∧
    (MigrationGenerator.Generate env g clock migration).writes.map Prod.fst =
      ((g.migrationFilesList (g.now clock) migration).take i).map Prod.fst ∧
    ∃ detail,
      msg = "error opening file: " ++
        ((g.migrationFilesList (g.now clock) migration).get ⟨i, hi⟩).1 ++ ": " ++ detail ∨
      msg = "error writing file: " ++
        ((g.migrationFilesList (g.now clock) migration).get ⟨i, hi⟩).1 ++ ": " ++ detail := by
  have hw := writeFiles_fail_at env (g.migrationFilesList (g.now clock) migration)
    i hi msg hprev hfail
  rw [generate_nonempty env g clock migration hup]
  refine ⟨?_, ?_, ?_⟩
  · simpa [MigrationGenerator.writeMigration] using hw.2
  · simpa [MigrationGenerator.writeMigration] using hw.1
  · rw [hmarshal] at hfail
    exact createFile_error_shape hfail

/-- C8 (witness): opening the down-script file fails on the demo run; the
error names that file and only the lock (position 0) was written. -/
theorem c8_witness :
    migUsers.Up.changes ≠ [] ∧
    (MigrationGenerator.Generate envFailDown gDemo 0 migUsers).err =
      some "error opening file: migrations/1500000000_add_users_table.down.sql: permission denied" ∧
    (MigrationGenerator.Generate envFailDown gDemo 0 migUsers).writes.map Prod.fst =
      [filepathJoin gDemo.dir migrationLock] := by
  have h := c8_write_failure_stops envFailDown gDemo 0 migUsers 1 "DROP TABLE users;"
    ("error opening file: " ++ downPathDemo ++ ": " ++ "permission denied")
    (by decide) (by decide)
    (by intro j hj; interval_cases j; exact ⟨"LOCKDATA", rfl⟩)
    rfl rfl
  exact ⟨by decide, h.1, h.2.1⟩

/-- C9: `writeMigration` reads the clock once and builds both script
filenames from that single reading, so the down and up script files of
one run share the identical `{unixTimestamp}_{slug}` prefix. -/
theorem c9_shared_timestamp_prefix (env : FSEnv) (g : MigrationGenerator) (clock : Nat)
    (migration : Migration) :
    g.writeMigration env clock migration =
      writeFiles env (g.migrationFilesList (g.now clock) migration) ∧
    ∃ p : String,
      p = g.dir ++ "/" ++ toString (g.now clock).unix ++ "_" ++ g.name ∧
      (g.migrationFilesList (g.now clock) migration).map Prod.fst =
        [filepathJoin g.dir migrationLock, p ++ ".down.sql", p ++ ".up.sql"] := by
  refine ⟨rfl, g.dir ++ "/" ++ toString (g.now clock).unix ++ "_" ++ g.name, rfl, ?_⟩
  simp only [MigrationGenerator.migrationFilesList, MigrationGenerator.migrationFile,
    filepathJoin, migrationDown, migrationUp, List.map_cons, List.map_nil,
    String.append_assoc]
  rfl

/-- C10: `slugify` is idempotent. -/
theorem c10_slugify_idempotent (s : String) : slugify (slugify s) = slugify s :=
  congrArg String.mk (filterMap_slug_fix (s.data.map runeLower))

end Kallax
